import Mathlib

/-!
Shallow embedding of `src/src/Entity.c` (boondock-sam): per-frame entity
simulation (velocity integration, gravity, horizontal wraparound, grounded
grid snap, sprite-frame animation, bounding-box maintenance) and rendering.

C `double` fields are modelled as `ℚ` (exact arithmetic); C unsigned
integers as `ℕ` with explicit `% 2 ^ w` where C arithmetic wraps; the
C cast `(int32_t)` of a double as truncation toward zero on `ℚ`.
-/

/-- Modelled from the spec: `Entity.h` (declaring the flag bit names) and
`Macros.h` (declaring `FLAG_IS_SET`) are not under `src/`.  The spec
describes four independent, combinable boolean bits inside `u16Flags`;
the concrete bit positions are not observable, so they are chosen as
0, 1, 2, 3. -/
def ENTITY_IS_DEAD : ℕ := 0

/-- Modelled from the spec: flag bit for `IS_MOVING` (see `ENTITY_IS_DEAD`). -/
def ENTITY_IS_MOVING : ℕ := 1

/-- Modelled from the spec: flag bit for `IS_IN_MID_AIR` (see `ENTITY_IS_DEAD`). -/
def ENTITY_IS_IN_MID_AIR : ℕ := 2

/-- Modelled from the spec: flag bit for `FACING_REVERSED` (see `ENTITY_IS_DEAD`). -/
def ENTITY_DIRECTION : ℕ := 3

/-- Modelled from the spec: `FLAG_IS_SET` from the missing `Macros.h`,
testing one bit of the flag word. -/
def FLAG_IS_SET (u16Flags bit : ℕ) : Bool := Nat.testBit u16Flags bit

/-- Axis-aligned bounding box, `struct AABB` from `AABB.h` as used by
`Entity.c` (fields `dBottom`, `dLeft`, `dRight`, `dTop`). -/
structure AABB where
  dBottom : ℚ
  dLeft   : ℚ
  dRight  : ℚ
  dTop    : ℚ
deriving DecidableEq

/-- Entity record, `struct Entity_t`, with the fields `Entity.c` reads and
writes.  The opaque `SDL_Texture *pstSprite` is `Option Unit` (absent or
bound); `uint8_t`/`uint16_t`/`uint32_t` fields are `ℕ`; `double` fields
are `ℚ`. -/
structure Entity where
  dAcceleration      : ℚ
  dDeceleration      : ℚ
  u16Flags           : ℕ
  u8Height           : ℕ
  u8Width            : ℕ
  u32MapWidth        : ℕ
  dFrameAnimationFPS : ℚ
  u8FrameStart       : ℕ
  u8FrameEnd         : ℕ
  u8FrameOffsetY     : ℕ
  dMaxVelocityX      : ℚ
  dWorldMeterInPixel : ℚ
  dWorldGravitation  : ℚ
  dWorldPosX         : ℚ
  dWorldPosY         : ℚ
  pstSprite          : Option Unit
  u8Frame            : ℕ
  dFrameDuration     : ℚ
  stBB               : AABB
  dInitialWorldPosX  : ℚ
  dInitialWorldPosY  : ℚ
  dDistanceY         : ℚ
  dVelocityX         : ℚ
  dVelocityY         : ℚ
deriving DecidableEq

/-- InitEntity (Entity.c lines 92-137), success path: `malloc` failure is
external and returns NULL, which this pure model does not represent.
Every field is populated exactly as in the C initialiser; note the
bounding box is NOT derived from the initial position: the C code sets
`stBB.dLeft = u8Height`, `stBB.dRight = u8Width`, top and bottom 0. -/
def InitEntity (u8Width u8Height : ℕ) (dPosX dPosY : ℚ) (u32MapWidth : ℕ) : Entity :=
  { dAcceleration      := 400
    dDeceleration      := 200
    u16Flags           := 0
    u8Height           := u8Height
    u8Width            := u8Width
    u32MapWidth        := u32MapWidth
    dFrameAnimationFPS := 20
    u8FrameStart       := 0
    u8FrameEnd         := 12
    u8FrameOffsetY     := 0
    dMaxVelocityX      := 100
    dWorldMeterInPixel := 48
    dWorldGravitation  := 9.81
    dWorldPosX         := dPosX
    dWorldPosY         := dPosY
    pstSprite          := none
    u8Frame            := 0
    dFrameDuration     := 0
    stBB               := { dBottom := 0, dLeft := (u8Height : ℚ), dRight := (u8Width : ℚ), dTop := 0 }
    dInitialWorldPosX  := dPosX
    dInitialWorldPosY  := dPosY
    dDistanceY         := 0
    dVelocityX         := 0
    dVelocityY         := 0 }

/-- ResurrectEntity (Entity.c lines 172-178): clear the `IS_DEAD` and
`IS_MOVING` bits (`&= ~(1 << bit)` on a `uint16_t`, hence the 16-bit
complement `65535 ^^^ (1 <<< bit)`) and restore the spawn position.
No other field is touched. -/
def ResurrectEntity (e : Entity) : Entity :=
  { e with
    u16Flags   := (e.u16Flags &&& (65535 ^^^ (1 <<< ENTITY_IS_DEAD)))
                    &&& (65535 ^^^ (1 <<< ENTITY_IS_MOVING))
    dWorldPosX := e.dInitialWorldPosX
    dWorldPosY := e.dInitialWorldPosY }

/-- SetEntitySpriteAnimation (Entity.c lines 188-201): plain field
assignment, no validation. -/
def SetEntitySpriteAnimation (e : Entity) (u8FrameStart u8FrameEnd u8FrameOffsetY : ℕ)
    (dFrameAnimationFPS : ℚ) : Entity :=
  { e with
    u8FrameStart       := u8FrameStart
    u8FrameEnd         := u8FrameEnd
    u8FrameOffsetY     := u8FrameOffsetY
    dFrameAnimationFPS := dFrameAnimationFPS }

/-- Truncation toward zero, the C conversion of a `double` to `int32_t`
(well-defined for the in-range values used here). -/
def truncQ (q : ℚ) : ℤ := if 0 ≤ q then ⌊q⌋ else -⌊-q⌋

/-- Integer tail of the grounded snap loop of UpdateEntity (Entity.c lines
260-266).  After the loop's first iteration the value is the integer
`⌊y⌋ - 1` and `floor` is then the identity, so each further iteration
just subtracts 1 while the C remainder by 8 is nonzero. -/
def snapIntLoop (n : ℤ) : ℤ :=
  if h : n.tmod 8 = 0 then n else snapIntLoop (n - 1)
termination_by (n % 8).toNat
decreasing_by
  have hnd : ¬ (8:ℤ) ∣ n := fun hd => h (Int.tmod_eq_zero_of_dvd hd)
  omega

/-- Grounded snap of UpdateEntity (Entity.c lines 259-267): the loop
`while ((int32_t)y % 8 != 0) { y = floor(y); y -= 1.0; }`.  The guard is
checked before the first iteration; if it fires, the first iteration
produces the integer `⌊y⌋ - 1` and the remaining iterations are
`snapIntLoop`. -/
def snapWorldPosY (y : ℚ) : ℚ :=
  if (truncQ y).tmod 8 = 0 then y else ((snapIntLoop (⌊y⌋ - 1) : ℤ) : ℚ)

/-- Horizontal velocity integration and clamp of UpdateEntity (Entity.c
lines 219-234): accelerate if `IS_MOVING` else decelerate, then clamp to
the ceiling (`>=`) and floor negative values to 0, in that order. -/
def stepVelocityX (e : Entity) (dDeltaTime : ℚ) : ℚ :=
  let v0 := if FLAG_IS_SET e.u16Flags ENTITY_IS_MOVING
            then e.dVelocityX + e.dAcceleration * dDeltaTime
            else e.dVelocityX - e.dDeceleration * dDeltaTime
  let v1 := if v0 ≥ e.dMaxVelocityX then e.dMaxVelocityX else v0
  if v1 < 0 then 0 else v1

/-- Horizontal position integration of UpdateEntity (Entity.c lines
237-248): only when the (already clamped) velocity is positive; direction
from the `FACING_REVERSED` bit. -/
def stepWorldPosX (e : Entity) (dDeltaTime v : ℚ) : ℚ :=
  if v > 0 then
    if FLAG_IS_SET e.u16Flags ENTITY_DIRECTION
    then e.dWorldPosX - v * dDeltaTime
    else e.dWorldPosX + v * dDeltaTime
  else e.dWorldPosX

/-- Vertical step of UpdateEntity (Entity.c lines 250-267), returning the
new `(dDistanceY, dVelocityY, dWorldPosY)`: explicit-Euler gravity when
`IS_IN_MID_AIR`, otherwise the grounded snap (which touches only the
position). -/
def stepVertical (e : Entity) (dDeltaTime : ℚ) : ℚ × ℚ × ℚ :=
  if FLAG_IS_SET e.u16Flags ENTITY_IS_IN_MID_AIR then
    let dG := e.dWorldMeterInPixel * e.dWorldGravitation
    let dist := dG * dDeltaTime * dDeltaTime
    let vy := e.dVelocityY + dist
    (dist, vy, e.dWorldPosY + vy)
  else
    (e.dDistanceY, e.dVelocityY, snapWorldPosY e.dWorldPosY)

/-- Wrap of an integer into `uint32_t` range, the value produced by C's
usual arithmetic conversions on `u32MapWidth - u8Width`. -/
def u32_of_int (z : ℤ) : ℕ := (z % (4294967296 : ℤ)).toNat

/-- Right wrap bound of UpdateEntity (Entity.c lines 269-278): the C
expression `u32MapWidth - u8Width` is computed in `uint32_t` arithmetic,
so it wraps modulo `2 ^ 32` when the width exceeds the map width. -/
def mapRightBound (e : Entity) : ℕ :=
  u32_of_int ((e.u32MapWidth : ℤ) - (e.u8Width : ℤ))

/-- Horizontal world wraparound of UpdateEntity (Entity.c lines 269-278):
two sequential checks against `0 - u8Width` (int arithmetic) and
`u32MapWidth - u8Width` (uint32 arithmetic). -/
def wrapWorldPosX (e : Entity) (x : ℚ) : ℚ :=
  let x1 := if x < 0 - (e.u8Width : ℚ) then ((mapRightBound e : ℕ) : ℚ) else x
  if x1 > ((mapRightBound e : ℕ) : ℚ) then 0 - (e.u8Width : ℚ) else x1

/-- Animation advance of UpdateEntity (Entity.c lines 280-298), returning
the new `(u8Frame, dFrameDuration)`: accumulate `dDeltaTime`, snap a
frame below `u8FrameStart` up, increment (a `uint8_t`, wrapping mod 256)
once the accumulator exceeds `1 / dFrameAnimationFPS`, and wrap a frame
at or past `u8FrameEnd` back to `u8FrameStart`.  (For
`dFrameAnimationFPS = 0` the C code divides by zero, documented as caller
responsibility; the `ℚ` model is not faithful there.) -/
def stepFrame (e : Entity) (dDeltaTime : ℚ) : ℕ × ℚ :=
  let dur := e.dFrameDuration + dDeltaTime
  let f1 := if e.u8Frame < e.u8FrameStart then e.u8FrameStart else e.u8Frame
  let fd := if dur > 1 / e.dFrameAnimationFPS then ((f1 + 1) % 256, (0 : ℚ)) else (f1, dur)
  if fd.1 ≥ e.u8FrameEnd then (e.u8FrameStart, fd.2) else fd

/-- UpdateEntity (Entity.c lines 207-298), one simulation step: bounding
box refresh from the entry position, velocity integration and clamp,
horizontal motion, vertical step, wraparound, animation advance — in the
C statement order (each step reads exactly the fields the C code has
written by that point). -/
def UpdateEntity (e : Entity) (dDeltaTime : ℚ) : Entity :=
  let v := stepVelocityX e dDeltaTime
  let x := stepWorldPosX e dDeltaTime v
  let vert := stepVertical e dDeltaTime
  let fd := stepFrame e dDeltaTime
  { e with
    stBB := { dBottom := e.dWorldPosY + (e.u8Height : ℚ)
              dLeft   := e.dWorldPosX
              dRight  := e.dWorldPosX + (e.u8Width : ℚ)
              dTop    := e.dWorldPosY }
    dVelocityX     := v
    dWorldPosX     := wrapWorldPosX e x
    dDistanceY     := vert.1
    dVelocityY     := vert.2.1
    dWorldPosY     := vert.2.2
    u8Frame        := fd.1
    dFrameDuration := fd.2 }

/-- SDL_Rect with integer coordinates; assigning a C `double` to a field
truncates toward zero. -/
structure SDL_Rect where
  x : ℤ
  y : ℤ
  w : ℤ
  h : ℤ
deriving DecidableEq

/-- Flip argument of the blit call. -/
inductive SDL_RendererFlip where
  | flipNone
  | flipHorizontal
deriving DecidableEq

/-- One blit issued to the external renderer: source rectangle,
destination rectangle, flip. -/
structure BlitCmd where
  src  : SDL_Rect
  dst  : SDL_Rect
  flip : SDL_RendererFlip
deriving DecidableEq

/-- DrawEntity (Entity.c lines 28-80).  The external renderer's outcome is
the parameter `renderSucceeds` (the C `SDL_RenderCopyEx` result).  The
result is `(return value, blits issued, entity after the call)`: with no
sprite bound the call returns -1 having issued nothing; otherwise exactly
one blit is issued and the return value is 0 or -1 with the renderer's
outcome.  The entity is returned unchanged because the C function never
writes through its entity pointer. -/
def DrawEntity (renderSucceeds : Bool) (e : Entity) (dCameraPosX dCameraPosY : ℚ) :
    ℤ × List BlitCmd × Entity :=
  match e.pstSprite with
  | none => (-1, [], e)
  | some _ =>
    let dRenderPosX := e.dWorldPosX - dCameraPosX
    let dRenderPosY := e.dWorldPosY - dCameraPosY
    let stDst : SDL_Rect :=
      { x := truncQ dRenderPosX, y := truncQ dRenderPosY
        w := (e.u8Width : ℤ), h := (e.u8Height : ℤ) }
    let stSrc : SDL_Rect :=
      { x := (e.u8Frame * e.u8Width : ℕ), y := (e.u8FrameOffsetY * e.u8Height : ℕ)
        w := (e.u8Width : ℤ), h := (e.u8Height : ℤ) }
    let s8Flip := if (e.u16Flags >>> ENTITY_DIRECTION) &&& 1 = 1
                  then SDL_RendererFlip.flipHorizontal
                  else SDL_RendererFlip.flipNone
    if renderSucceeds
    then (0, [{ src := stSrc, dst := stDst, flip := s8Flip }], e)
    else (-1, [{ src := stSrc, dst := stDst, flip := s8Flip }], e)

/-! Helper lemmas shared by the claim theorems. -/

theorem UpdateEntity_dVelocityX (e : Entity) (dt : ℚ) :
    (UpdateEntity e dt).dVelocityX = stepVelocityX e dt := rfl

theorem UpdateEntity_dWorldPosX (e : Entity) (dt : ℚ) :
    (UpdateEntity e dt).dWorldPosX = wrapWorldPosX e (stepWorldPosX e dt (stepVelocityX e dt)) := rfl

theorem UpdateEntity_dWorldPosY (e : Entity) (dt : ℚ) :
    (UpdateEntity e dt).dWorldPosY = (stepVertical e dt).2.2 := rfl

theorem UpdateEntity_dVelocityY (e : Entity) (dt : ℚ) :
    (UpdateEntity e dt).dVelocityY = (stepVertical e dt).2.1 := rfl

theorem UpdateEntity_dDistanceY (e : Entity) (dt : ℚ) :
    (UpdateEntity e dt).dDistanceY = (stepVertical e dt).1 := rfl

theorem UpdateEntity_u8Frame (e : Entity) (dt : ℚ) :
    (UpdateEntity e dt).u8Frame = (stepFrame e dt).1 := rfl

theorem UpdateEntity_stBB (e : Entity) (dt : ℚ) :
    (UpdateEntity e dt).stBB =
      { dBottom := e.dWorldPosY + (e.u8Height : ℚ)
        dLeft   := e.dWorldPosX
        dRight  := e.dWorldPosX + (e.u8Width : ℚ)
        dTop    := e.dWorldPosY } := rfl

theorem stepVertical_grounded (e : Entity) (dt : ℚ)
    (h : FLAG_IS_SET e.u16Flags ENTITY_IS_IN_MID_AIR = false) :
    (stepVertical e dt).2.2 = snapWorldPosY e.dWorldPosY := by
  simp [stepVertical, h]

theorem snapIntLoop_eq (n : ℤ) : snapIntLoop n = 8 * (n / 8) := by
  by_cases h : n.tmod 8 = 0
  · rw [snapIntLoop, dif_pos h]
    have hd : (8:ℤ) ∣ n := Int.dvd_of_tmod_eq_zero h
    omega
  · rw [snapIntLoop, dif_neg h]
    have hnd : ¬ (8:ℤ) ∣ n := fun hd => h (Int.tmod_eq_zero_of_dvd hd)
    rw [snapIntLoop_eq (n - 1)]
    omega
termination_by (n % 8).toNat
decreasing_by
  have hnd : ¬ (8:ℤ) ∣ n := fun hd => h (Int.tmod_eq_zero_of_dvd hd)
  omega

theorem truncQ_intCast (n : ℤ) : truncQ (n : ℚ) = n := by
  unfold truncQ
  split
  · exact Int.floor_intCast n
  · rw [show -((n : ℤ) : ℚ) = ((-n : ℤ) : ℚ) by push_cast; ring, Int.floor_intCast]
    ring

theorem floor_intCast_div_eight (n : ℤ) : ⌊(n : ℚ) / 8⌋ = n / 8 := by
  have h := Rat.floor_intCast_div_natCast n 8
  norm_num at h
  exact h

theorem snapWorldPosY_intCast (n : ℤ) :
    snapWorldPosY (n : ℚ) = ((8 * (n / 8) : ℤ) : ℚ) := by
  unfold snapWorldPosY
  rw [truncQ_intCast, Int.floor_intCast]
  by_cases h : n.tmod 8 = 0
  · rw [if_pos h]
    have hd : (8:ℤ) ∣ n := Int.dvd_of_tmod_eq_zero h
    have : 8 * (n / 8) = n := by omega
    rw [this]
  · rw [if_neg h, snapIntLoop_eq]
    have hnd : ¬ (8:ℤ) ∣ n := fun hd => h (Int.tmod_eq_zero_of_dvd hd)
    have : 8 * ((n - 1) / 8) = 8 * (n / 8) := by omega
    rw [this]

/-- C1: for every entity state whose clamp ceiling is a meaningful bound
(`0 ≤ dMaxVelocityX`, part of the spec's data model) and every
`dt ≥ 0`, after UpdateEntity the horizontal velocity lies in
`[0, dMaxVelocityX]`: the integration step is followed by the two-sided
clamp, regardless of the starting velocity. -/
theorem velocityX_clamped_after_update (e : Entity) (dt : ℚ)
    (hdt : 0 ≤ dt) (hmax : 0 ≤ e.dMaxVelocityX) :
    0 ≤ (UpdateEntity e dt).dVelocityX ∧
      (UpdateEntity e dt).dVelocityX ≤ e.dMaxVelocityX := by
  rw [UpdateEntity_dVelocityX]
  unfold stepVelocityX
  dsimp only
  split_ifs <;> constructor <;> linarith

/-- C1 witness. -/
theorem velocityX_clamped_after_update_witness :
    (0 : ℚ) ≤ 1 ∧ (0 : ℚ) ≤ (InitEntity 16 16 0 0 100).dMaxVelocityX ∧
      (0 ≤ (UpdateEntity (InitEntity 16 16 0 0 100) 1).dVelocityX ∧
        (UpdateEntity (InitEntity 16 16 0 0 100) 1).dVelocityX ≤
          (InitEntity 16 16 0 0 100).dMaxVelocityX) :=
  ⟨by norm_num, by decide,
    velocityX_clamped_after_update (InitEntity 16 16 0 0 100) 1 (by norm_num) (by decide)⟩

/-- C2: after UpdateEntity the bounding box is exactly the box of the
position on entry to the call (top = entry posY, left = entry posX,
right = entry posX + width, bottom = entry posY + height), so its width
and height always match the entity extents. -/
theorem boundingBox_reflects_entry_position (e : Entity) (dt : ℚ) :
    (UpdateEntity e dt).stBB.dTop = e.dWorldPosY ∧
    (UpdateEntity e dt).stBB.dLeft = e.dWorldPosX ∧
    (UpdateEntity e dt).stBB.dRight = e.dWorldPosX + (e.u8Width : ℚ) ∧
    (UpdateEntity e dt).stBB.dBottom = e.dWorldPosY + (e.u8Height : ℚ) ∧
    (UpdateEntity e dt).stBB.dRight - (UpdateEntity e dt).stBB.dLeft = (e.u8Width : ℚ) ∧
    (UpdateEntity e dt).stBB.dBottom - (UpdateEntity e dt).stBB.dTop = (e.u8Height : ℚ) :=
  ⟨rfl, rfl, rfl, rfl, by rw [UpdateEntity_stBB]; ring, by rw [UpdateEntity_stBB]; ring⟩

/-- C3 counterexample: InitEntity does not set the bounding box from the
initial position.  At width 3, height 5, position (7, 11) the claim says
the box is top 11, left 7, right 10, bottom 16, but InitEntity produces
top 0, left 5 (the height!), right 3, bottom 0. -/
theorem initEntity_boundingBox_not_from_position :
    (InitEntity 3 5 7 11 100).stBB.dLeft = 5 ∧
    (InitEntity 3 5 7 11 100).stBB.dLeft ≠ (InitEntity 3 5 7 11 100).dWorldPosX ∧
    (InitEntity 3 5 7 11 100).stBB.dTop ≠ (InitEntity 3 5 7 11 100).dWorldPosY :=
  ⟨rfl, by decide, by decide⟩

/-- C3 amended: InitEntity populates the documented defaults
(acceleration 400, deceleration 200, maxVelocityX 100,
worldMeterInPixel 48, gravitationalConstant 9.81, animation frames
0 to 12 at 20 fps, frame row offset 0), zeroes velocities and flags,
stores the spawn point — but initialises the bounding box to
top 0, bottom 0, left = height, right = width, NOT from the initial
position (the box is first derived from the position by the next
UpdateEntity call). -/
theorem initEntity_defaults (w h : ℕ) (x y : ℚ) (m : ℕ) :
    (InitEntity w h x y m).dAcceleration = 400 ∧
    (InitEntity w h x y m).dDeceleration = 200 ∧
    (InitEntity w h x y m).dMaxVelocityX = 100 ∧
    (InitEntity w h x y m).dWorldMeterInPixel = 48 ∧
    (InitEntity w h x y m).dWorldGravitation = 9.81 ∧
    (InitEntity w h x y m).u8FrameStart = 0 ∧
    (InitEntity w h x y m).u8FrameEnd = 12 ∧
    (InitEntity w h x y m).dFrameAnimationFPS = 20 ∧
    (InitEntity w h x y m).u8FrameOffsetY = 0 ∧
    (InitEntity w h x y m).dVelocityX = 0 ∧
    (InitEntity w h x y m).dVelocityY = 0 ∧
    (InitEntity w h x y m).u16Flags = 0 ∧
    (InitEntity w h x y m).u8Frame = 0 ∧
    (InitEntity w h x y m).dFrameDuration = 0 ∧
    (InitEntity w h x y m).dDistanceY = 0 ∧
    (InitEntity w h x y m).pstSprite = none ∧
    (InitEntity w h x y m).dWorldPosX = x ∧
    (InitEntity w h x y m).dWorldPosY = y ∧
    (InitEntity w h x y m).dInitialWorldPosX = x ∧
    (InitEntity w h x y m).dInitialWorldPosY = y ∧
    (InitEntity w h x y m).u8Width = w ∧
    (InitEntity w h x y m).u8Height = h ∧
    (InitEntity w h x y m).u32MapWidth = m ∧
    (InitEntity w h x y m).stBB =
      { dBottom := 0, dLeft := (h : ℚ), dRight := (w : ℚ), dTop := 0 } :=
  ⟨rfl, rfl, rfl, rfl, rfl, rfl, rfl, rfl, rfl, rfl, rfl, rfl,
   rfl, rfl, rfl, rfl, rfl, rfl, rfl, rfl, rfl, rfl, rfl, rfl⟩

/-- C4 counterexample: with width 2 and map width 1 the C expression
`u32MapWidth - u8Width` wraps to 4294967295 in `uint32_t` arithmetic, so
an entity at posX 3 (outside the claimed interval, which would be
`[-2, -1]`) is not wrapped at all: after UpdateEntity its posX is
still 3, above the claimed upper bound mapWidth - width = -1. -/
theorem wraparound_fails_when_width_exceeds_mapWidth :
    (UpdateEntity (InitEntity 2 2 3 0 1) 0).dWorldPosX = 3 ∧
    ¬ ((UpdateEntity (InitEntity 2 2 3 0 1) 0).dWorldPosX ≤
        ((1 : ℚ) - (2 : ℚ))) := by
  have h : (UpdateEntity (InitEntity 2 2 3 0 1) 0).dWorldPosX = 3 := by
    rw [UpdateEntity_dWorldPosX]
    norm_num [wrapWorldPosX, stepWorldPosX, stepVelocityX, mapRightBound, u32_of_int,
      InitEntity, FLAG_IS_SET, Nat.zero_testBit]
  refine ⟨h, by rw [h]; norm_num⟩

/-- C4 amended: provided the entity width does not exceed the map width
(so the `uint32_t` subtraction `u32MapWidth - u8Width` does not wrap; the
map width is within `uint32_t` range), after UpdateEntity the horizontal
position lies in `[-width, mapWidth - width]`; a post-motion position
below `-width` is set exactly to `mapWidth - width` and a post-motion
position above `mapWidth - width` is set exactly to `-width`, with no
partial overshoot carried across the boundary. -/
theorem worldPosX_wraparound_in_range (e : Entity) (dt : ℚ)
    (hwm : e.u8Width ≤ e.u32MapWidth) (hm : e.u32MapWidth < 4294967296) :
    (-((e.u8Width : ℚ)) ≤ (UpdateEntity e dt).dWorldPosX ∧
      (UpdateEntity e dt).dWorldPosX ≤ (e.u32MapWidth : ℚ) - (e.u8Width : ℚ)) ∧
    (stepWorldPosX e dt (stepVelocityX e dt) < -((e.u8Width : ℚ)) →
      (UpdateEntity e dt).dWorldPosX = (e.u32MapWidth : ℚ) - (e.u8Width : ℚ)) ∧
    ((e.u32MapWidth : ℚ) - (e.u8Width : ℚ) < stepWorldPosX e dt (stepVelocityX e dt) →
      (UpdateEntity e dt).dWorldPosX = -((e.u8Width : ℚ))) := by
  have h0 : (0:ℤ) ≤ (e.u32MapWidth : ℤ) - (e.u8Width : ℤ) := by
    have : (e.u8Width : ℤ) ≤ (e.u32MapWidth : ℤ) := by exact_mod_cast hwm
    omega
  have h1 : (e.u32MapWidth : ℤ) - (e.u8Width : ℤ) < 4294967296 := by
    have : (e.u32MapWidth : ℤ) < 4294967296 := by exact_mod_cast hm
    omega
  have hbound : ((mapRightBound e : ℕ) : ℚ) = (e.u32MapWidth : ℚ) - (e.u8Width : ℚ) := by
    unfold mapRightBound u32_of_int
    rw [Int.emod_eq_of_lt h0 h1]
    have h2 := Int.toNat_of_nonneg h0
    have h3 : ((((e.u32MapWidth : ℤ) - (e.u8Width : ℤ)).toNat : ℕ) : ℚ)
        = (((e.u32MapWidth : ℤ) - (e.u8Width : ℤ) : ℤ) : ℚ) := by
      exact_mod_cast congrArg (fun z : ℤ => (z : ℚ)) h2
    rw [h3]
    push_cast
    ring
  have hm0 : (0:ℚ) ≤ (e.u32MapWidth : ℚ) := Nat.cast_nonneg _
  rw [UpdateEntity_dWorldPosX]
  unfold wrapWorldPosX
  rw [hbound]
  dsimp only
  split_ifs <;>
    refine ⟨⟨?_, ?_⟩, fun hlt => ?_, fun hgt => ?_⟩ <;> linarith

/-- C4 witness. -/
theorem worldPosX_wraparound_in_range_witness :
    (-(((InitEntity 16 16 0 0 100).u8Width : ℚ)) ≤
        (UpdateEntity (InitEntity 16 16 0 0 100) 0).dWorldPosX ∧
      (UpdateEntity (InitEntity 16 16 0 0 100) 0).dWorldPosX ≤
        ((InitEntity 16 16 0 0 100).u32MapWidth : ℚ) -
          ((InitEntity 16 16 0 0 100).u8Width : ℚ)) ∧
    (stepWorldPosX (InitEntity 16 16 0 0 100) 0
          (stepVelocityX (InitEntity 16 16 0 0 100) 0) <
        -(((InitEntity 16 16 0 0 100).u8Width : ℚ)) →
      (UpdateEntity (InitEntity 16 16 0 0 100) 0).dWorldPosX =
        ((InitEntity 16 16 0 0 100).u32MapWidth : ℚ) -
          ((InitEntity 16 16 0 0 100).u8Width : ℚ)) ∧
    (((InitEntity 16 16 0 0 100).u32MapWidth : ℚ) -
          ((InitEntity 16 16 0 0 100).u8Width : ℚ) <
        stepWorldPosX (InitEntity 16 16 0 0 100) 0
          (stepVelocityX (InitEntity 16 16 0 0 100) 0) →
      (UpdateEntity (InitEntity 16 16 0 0 100) 0).dWorldPosX =
        -(((InitEntity 16 16 0 0 100).u8Width : ℚ))) :=
  worldPosX_wraparound_in_range (InitEntity 16 16 0 0 100) 0 (by decide) (by decide)

/-- C5 counterexample: the frame index is a `uint8_t`, so the increment
wraps 255 to 0 and escapes the declared range when `u8FrameStart > 0`.
With frameStart 1 < frameEnd 3 (the claim's precondition), entering
frame 255 and dt 1, UpdateEntity leaves frame 0, which is below
frameStart. -/
theorem frame_escapes_range_at_255 :
    (UpdateEntity
        { InitEntity 16 16 0 0 100 with
          u8Frame := 255, u8FrameStart := 1, u8FrameEnd := 3 } 1).u8Frame = 0 ∧
    ¬ (({ InitEntity 16 16 0 0 100 with
          u8Frame := 255, u8FrameStart := 1, u8FrameEnd := 3 } : Entity).u8FrameStart ≤
        (UpdateEntity
          { InitEntity 16 16 0 0 100 with
            u8Frame := 255, u8FrameStart := 1, u8FrameEnd := 3 } 1).u8Frame) := by
  have h : (UpdateEntity
      { InitEntity 16 16 0 0 100 with
        u8Frame := 255, u8FrameStart := 1, u8FrameEnd := 3 } 1).u8Frame = 0 := by
    rw [UpdateEntity_u8Frame]
    norm_num [stepFrame, InitEntity]
  refine ⟨h, by rw [h]; norm_num [InitEntity]⟩

/-- C5 amended: under the precondition `frameStart < frameEnd` together
with the `uint8_t` range fact `frameEnd ≤ 255` and the additional
hypothesis that the entering frame index is below 255 (true of every
state reachable through the API, since the index stays below `frameEnd`;
at exactly 255 the `uint8_t` increment wraps to 0 and escapes the range
when `frameStart > 0`), after UpdateEntity the frame index satisfies
`frameStart ≤ frameIndex < frameEnd`. -/
theorem frameIndex_in_declared_range (e : Entity) (dt : ℚ)
    (hse : e.u8FrameStart < e.u8FrameEnd) (he : e.u8FrameEnd ≤ 255)
    (hf : e.u8Frame < 255) :
    e.u8FrameStart ≤ (UpdateEntity e dt).u8Frame ∧
      (UpdateEntity e dt).u8Frame < e.u8FrameEnd := by
  rw [UpdateEntity_u8Frame]
  unfold stepFrame
  dsimp only
  split_ifs <;> dsimp only <;> omega

/-- C5 witness. -/
theorem frameIndex_in_declared_range_witness :
    (InitEntity 16 16 0 0 100).u8FrameStart ≤
        (UpdateEntity (InitEntity 16 16 0 0 100) 1).u8Frame ∧
      (UpdateEntity (InitEntity 16 16 0 0 100) 1).u8Frame <
        (InitEntity 16 16 0 0 100).u8FrameEnd :=
  frameIndex_in_declared_range (InitEntity 16 16 0 0 100) 1
    (by decide) (by decide) (by decide)

/-- C6 counterexample: the grounded snap loop's guard truncates the
position to `int32_t` first, so a fractional position whose truncation is
already a multiple of 8 is left untouched.  Grounded at worldPosY 16.5,
UpdateEntity leaves 16.5, not the claimed nearest lower multiple of 8
(which is 16). -/
theorem grounded_snap_leaves_fractional_position :
    (UpdateEntity (InitEntity 16 16 0 (33/2) 100) 0).dWorldPosY = 33/2 ∧
    (UpdateEntity (InitEntity 16 16 0 (33/2) 100) 0).dWorldPosY ≠
      ((8 * ⌊(InitEntity 16 16 0 (33/2) 100).dWorldPosY / 8⌋ : ℤ) : ℚ) := by
  have ht : truncQ ((33:ℚ)/2) = 16 := by
    unfold truncQ
    rw [if_pos (by norm_num)]
    rw [Int.floor_eq_iff]
    constructor <;> norm_num
  have h : (UpdateEntity (InitEntity 16 16 0 (33/2) 100) 0).dWorldPosY = 33/2 := by
    rw [UpdateEntity_dWorldPosY, stepVertical_grounded _ _ (by decide)]
    show snapWorldPosY ((33:ℚ)/2) = 33/2
    unfold snapWorldPosY
    rw [ht, if_pos (by decide)]
  have hfl : ⌊(InitEntity 16 16 0 (33/2) 100).dWorldPosY / 8⌋ = 2 := by
    show ⌊(33:ℚ)/2/8⌋ = 2
    rw [Int.floor_eq_iff]
    constructor <;> norm_num
  refine ⟨h, by rw [h, hfl]; norm_num⟩

/-- C6 amended: for every grounded entity (`IS_IN_MID_AIR` clear) whose
worldPosY is an integer, after UpdateEntity the worldPosY equals the
nearest lower multiple of 8, i.e. `8 * ⌊worldPosY / 8⌋`.  (For
non-integer positions the C loop's `int32_t`-truncated guard can leave
the value unchanged, or overshoot by a tile for negative fractional
positions, so the claim is restricted to integral positions — the only
ones the grounded snap itself ever produces.) -/
theorem grounded_snap_integer_positions (e : Entity) (dt : ℚ) (n : ℤ)
    (hair : FLAG_IS_SET e.u16Flags ENTITY_IS_IN_MID_AIR = false)
    (hint : e.dWorldPosY = (n : ℚ)) :
    (UpdateEntity e dt).dWorldPosY = ((8 * ⌊e.dWorldPosY / 8⌋ : ℤ) : ℚ) := by
  rw [UpdateEntity_dWorldPosY, stepVertical_grounded e dt hair, hint,
      snapWorldPosY_intCast, floor_intCast_div_eight]

/-- C6 witness. -/
theorem grounded_snap_integer_positions_witness :
    (UpdateEntity (InitEntity 16 16 0 21 100) 0).dWorldPosY =
      ((8 * ⌊(InitEntity 16 16 0 21 100).dWorldPosY / 8⌋ : ℤ) : ℚ) :=
  grounded_snap_integer_positions (InitEntity 16 16 0 21 100) 0 21
    (by decide) (by norm_num [InitEntity])

/-- C7: for every grounded entity, one UpdateEntity call takes
worldPosY 17 to 16 (the nearest lower multiple of 8), and from
worldPosY 16 every further grounded call leaves it at 16 — the snap is
idempotent once aligned. -/
theorem grounded_snap_17_to_16_idempotent (e : Entity) (dt : ℚ)
    (hair : FLAG_IS_SET e.u16Flags ENTITY_IS_IN_MID_AIR = false) :
    (e.dWorldPosY = 17 → (UpdateEntity e dt).dWorldPosY = 16) ∧
    (e.dWorldPosY = 16 → (UpdateEntity e dt).dWorldPosY = 16) := by
  refine ⟨fun h => ?_, fun h => ?_⟩
  · rw [UpdateEntity_dWorldPosY, stepVertical_grounded e dt hair, h,
        show (17:ℚ) = ((17:ℤ):ℚ) by norm_num, snapWorldPosY_intCast]
    norm_num
  · rw [UpdateEntity_dWorldPosY, stepVertical_grounded e dt hair, h,
        show (16:ℚ) = ((16:ℤ):ℚ) by norm_num, snapWorldPosY_intCast]
    norm_num

/-- C7 witness. -/
theorem grounded_snap_17_to_16_idempotent_witness :
    (UpdateEntity (InitEntity 16 16 0 17 100) 0).dWorldPosY = 16 ∧
    (UpdateEntity (InitEntity 16 16 0 16 100) 0).dWorldPosY = 16 :=
  ⟨(grounded_snap_17_to_16_idempotent (InitEntity 16 16 0 17 100) 0 (by decide)).1 rfl,
   (grounded_snap_17_to_16_idempotent (InitEntity 16 16 0 16 100) 0 (by decide)).2 rfl⟩

/-- C8: for every airborne entity (`IS_IN_MID_AIR` set) and every dt,
UpdateEntity performs exactly the C vertical integration: dDistanceY
becomes worldMeterInPixel * gravitationalConstant * dt * dt, dVelocityY
grows by that distance, and worldPosY grows by the new dVelocityY; the
grounded snap does not run and nothing resets dVelocityY. -/
theorem midair_vertical_integration (e : Entity) (dt : ℚ)
    (hair : FLAG_IS_SET e.u16Flags ENTITY_IS_IN_MID_AIR = true) :
    (UpdateEntity e dt).dDistanceY =
        e.dWorldMeterInPixel * e.dWorldGravitation * dt * dt ∧
    (UpdateEntity e dt).dVelocityY =
        e.dVelocityY + e.dWorldMeterInPixel * e.dWorldGravitation * dt * dt ∧
    (UpdateEntity e dt).dWorldPosY =
        e.dWorldPosY +
          (e.dVelocityY + e.dWorldMeterInPixel * e.dWorldGravitation * dt * dt) := by
  refine ⟨?_, ?_, ?_⟩ <;>
    simp [UpdateEntity_dDistanceY, UpdateEntity_dVelocityY, UpdateEntity_dWorldPosY,
      stepVertical, hair]

/-- C8 witness. -/
theorem midair_vertical_integration_witness :
    (UpdateEntity { InitEntity 16 16 0 0 100 with u16Flags := 4 } 1).dDistanceY =
        ({ InitEntity 16 16 0 0 100 with u16Flags := 4 } : Entity).dWorldMeterInPixel *
          ({ InitEntity 16 16 0 0 100 with u16Flags := 4 } : Entity).dWorldGravitation * 1 * 1 ∧
    (UpdateEntity { InitEntity 16 16 0 0 100 with u16Flags := 4 } 1).dVelocityY =
        ({ InitEntity 16 16 0 0 100 with u16Flags := 4 } : Entity).dVelocityY +
          ({ InitEntity 16 16 0 0 100 with u16Flags := 4 } : Entity).dWorldMeterInPixel *
            ({ InitEntity 16 16 0 0 100 with u16Flags := 4 } : Entity).dWorldGravitation * 1 * 1 ∧
    (UpdateEntity { InitEntity 16 16 0 0 100 with u16Flags := 4 } 1).dWorldPosY =
        ({ InitEntity 16 16 0 0 100 with u16Flags := 4 } : Entity).dWorldPosY +
          (({ InitEntity 16 16 0 0 100 with u16Flags := 4 } : Entity).dVelocityY +
            ({ InitEntity 16 16 0 0 100 with u16Flags := 4 } : Entity).dWorldMeterInPixel *
              ({ InitEntity 16 16 0 0 100 with u16Flags := 4 } : Entity).dWorldGravitation * 1 * 1) :=
  midair_vertical_integration { InitEntity 16 16 0 0 100 with u16Flags := 4 } 1 (by decide)

/-- C9: ResurrectEntity clears exactly the `IS_DEAD` and `IS_MOVING`
flags, restores worldPosX/worldPosY from the stored spawn point, and
leaves the velocities, the frame index, the bounding box, the remaining
flags (`IS_IN_MID_AIR`, `FACING_REVERSED`) and every other field
unchanged. -/
theorem resurrect_partial_reset (e : Entity) :
    FLAG_IS_SET (ResurrectEntity e).u16Flags ENTITY_IS_DEAD = false ∧
    FLAG_IS_SET (ResurrectEntity e).u16Flags ENTITY_IS_MOVING = false ∧
    FLAG_IS_SET (ResurrectEntity e).u16Flags ENTITY_IS_IN_MID_AIR =
      FLAG_IS_SET e.u16Flags ENTITY_IS_IN_MID_AIR ∧
    FLAG_IS_SET (ResurrectEntity e).u16Flags ENTITY_DIRECTION =
      FLAG_IS_SET e.u16Flags ENTITY_DIRECTION ∧
    (ResurrectEntity e).dWorldPosX = e.dInitialWorldPosX ∧
    (ResurrectEntity e).dWorldPosY = e.dInitialWorldPosY ∧
    (ResurrectEntity e).dVelocityX = e.dVelocityX ∧
    (ResurrectEntity e).dVelocityY = e.dVelocityY ∧
    (ResurrectEntity e).u8Frame = e.u8Frame ∧
    (ResurrectEntity e).stBB = e.stBB ∧
    (ResurrectEntity e).dAcceleration = e.dAcceleration ∧
    (ResurrectEntity e).dDeceleration = e.dDeceleration ∧
    (ResurrectEntity e).u8Height = e.u8Height ∧
    (ResurrectEntity e).u8Width = e.u8Width ∧
    (ResurrectEntity e).u32MapWidth = e.u32MapWidth ∧
    (ResurrectEntity e).dFrameAnimationFPS = e.dFrameAnimationFPS ∧
    (ResurrectEntity e).u8FrameStart = e.u8FrameStart ∧
    (ResurrectEntity e).u8FrameEnd = e.u8FrameEnd ∧
    (ResurrectEntity e).u8FrameOffsetY = e.u8FrameOffsetY ∧
    (ResurrectEntity e).dMaxVelocityX = e.dMaxVelocityX ∧
    (ResurrectEntity e).dWorldMeterInPixel = e.dWorldMeterInPixel ∧
    (ResurrectEntity e).dWorldGravitation = e.dWorldGravitation ∧
    (ResurrectEntity e).pstSprite = e.pstSprite ∧
    (ResurrectEntity e).dFrameDuration = e.dFrameDuration ∧
    (ResurrectEntity e).dInitialWorldPosX = e.dInitialWorldPosX ∧
    (ResurrectEntity e).dInitialWorldPosY = e.dInitialWorldPosY ∧
    (ResurrectEntity e).dDistanceY = e.dDistanceY := by
  have hd0 : Nat.testBit (65535 ^^^ 1 <<< ENTITY_IS_DEAD) ENTITY_IS_DEAD = false := by decide
  have hd1 : Nat.testBit (65535 ^^^ 1 <<< ENTITY_IS_DEAD) ENTITY_IS_MOVING = true := by decide
  have hd2 : Nat.testBit (65535 ^^^ 1 <<< ENTITY_IS_DEAD) ENTITY_IS_IN_MID_AIR = true := by decide
  have hd3 : Nat.testBit (65535 ^^^ 1 <<< ENTITY_IS_DEAD) ENTITY_DIRECTION = true := by decide
  have hv0 : Nat.testBit (65535 ^^^ 1 <<< ENTITY_IS_MOVING) ENTITY_IS_DEAD = true := by decide
  have hv1 : Nat.testBit (65535 ^^^ 1 <<< ENTITY_IS_MOVING) ENTITY_IS_MOVING = false := by decide
  have hv2 : Nat.testBit (65535 ^^^ 1 <<< ENTITY_IS_MOVING) ENTITY_IS_IN_MID_AIR = true := by decide
  have hv3 : Nat.testBit (65535 ^^^ 1 <<< ENTITY_IS_MOVING) ENTITY_DIRECTION = true := by decide
  refine ⟨?_, ?_, ?_, ?_, rfl, rfl, rfl, rfl, rfl, rfl, rfl, rfl, rfl, rfl, rfl, rfl,
    rfl, rfl, rfl, rfl, rfl, rfl, rfl, rfl, rfl, rfl, rfl⟩ <;>
    simp [ResurrectEntity, FLAG_IS_SET, Nat.testBit_and, hd0, hd1, hd2, hd3,
      hv0, hv1, hv2, hv3]

/-- C10: DrawEntity never mutates the entity (its entity component is the
input unchanged); with no sprite bound it returns -1 and issues no blit;
with a sprite bound it issues exactly one blit, and returns 0 exactly
when the external renderer succeeds. -/
theorem draw_missing_sprite_and_no_mutation (ok : Bool) (e : Entity) (cx cy : ℚ) :
    (DrawEntity ok e cx cy).2.2 = e ∧
    (e.pstSprite = none →
      (DrawEntity ok e cx cy).1 = -1 ∧ (DrawEntity ok e cx cy).2.1 = []) ∧
    (e.pstSprite ≠ none → (DrawEntity ok e cx cy).2.1.length = 1) ∧
    (ok = true → e.pstSprite ≠ none → (DrawEntity ok e cx cy).1 = 0) := by
  rcases hs : e.pstSprite with _ | t <;> cases ok <;> simp [DrawEntity, hs]

/-- C10 witness. -/
theorem draw_missing_sprite_and_no_mutation_witness :
    (DrawEntity true (InitEntity 16 16 0 0 100) 0 0).1 = -1 ∧
    (DrawEntity true (InitEntity 16 16 0 0 100) 0 0).2.1 = [] ∧
    (DrawEntity true (InitEntity 16 16 0 0 100) 0 0).2.2 = InitEntity 16 16 0 0 100 ∧
    (DrawEntity true { InitEntity 16 16 0 0 100 with pstSprite := some () } 0 0).2.1.length = 1 :=
  ⟨((draw_missing_sprite_and_no_mutation true (InitEntity 16 16 0 0 100) 0 0).2.1 rfl).1,
   ((draw_missing_sprite_and_no_mutation true (InitEntity 16 16 0 0 100) 0 0).2.1 rfl).2,
   (draw_missing_sprite_and_no_mutation true (InitEntity 16 16 0 0 100) 0 0).1,
   (draw_missing_sprite_and_no_mutation true
      { InitEntity 16 16 0 0 100 with pstSprite := some () } 0 0).2.2.1 (by decide)⟩
